import Mathlib

/-!
# Forward Factor Scanner — verification of the core pipeline

Shallow embedding of the Forward Factor computation and quality-filtering
pipeline of the `forward-factor-scanner` repository.

Python floating point numbers are idealised as exact rationals (`ℚ`) for all
arithmetic that the code performs with field operations and comparisons, and
as exact reals (`ℝ`) where the code takes square roots
(`forward_var ** 0.5`).  Integer quantities (days to expiration, ratings,
ids) are `ℤ`/`ℕ`.  Python exceptions that the code catches are modelled with
`Except`/`Option` results, exactly along the `try`/`except` boundaries of the
source.

Embedded source files:
* `ff_scanner.py` — `ForwardFactorScanner.calculate_forward_factor`,
  `group_by_expiration`, `find_best_pairs`;
* `ff_nightly_scanner.py` — `Opportunity`, `EarningsInfo`,
  `FFScannerService.verify_forward_factor`, `apply_quality_filters`,
  `calculate_probability`, `calculate_risk_reward`, `calculate_rating`,
  `get_earnings_info`;
* `ff_earnings_yahoo.py` — `YahooEarningsCalendar.get_earnings_info`.
-/

namespace FFScanner

/-! ## §4.2 Forward Factor Calculator (`ff_scanner.py`, lines 172–197)

`calculate_forward_factor(front_iv, front_dte, back_iv, back_dte)` computes

```
T1 = front_dte / 365.0 ;  T2 = back_dte / 365.0
sigma1 = front_iv / 100.0 ;  sigma2 = back_iv / 100.0
forward_var = ((sigma2 ** 2) * T2 - (sigma1 ** 2) * T1) / (T2 - T1)
```

inside a `try:` block.  If `T2 - T1 == 0` the division raises
`ZeroDivisionError`, caught by the blanket `except`, which returns
`(None, None, str(e))`.  If `forward_var < 0` it returns
`(None, None, "Negative forward variance")`.  Otherwise it computes
`forward_vol = (forward_var ** 0.5) * 100` and
`forward_factor = ((sigma1 - forward_var ** 0.5) / forward_var ** 0.5) * 100`;
when `forward_var == 0` that last division raises `ZeroDivisionError`, again
caught and returned as an error triple.  We model the `(vol, ff, error)`
triple as `Except String (ℝ × ℝ)`. -/

/-- The forward variance `((sigma2 ** 2) * T2 - (sigma1 ** 2) * T1) / (T2 - T1)`
of `ff_scanner.py` line 184, in exact rational arithmetic.  (In ℚ a division
by zero yields `0`; `calculate_forward_factor` below branches on
`T2 - T1 = 0` first, mirroring the Python `ZeroDivisionError`.) -/
def fwdVar (front_iv front_dte back_iv back_dte : ℚ) : ℚ :=
  let T1 := front_dte / 365
  let T2 := back_dte / 365
  let sigma1 := front_iv / 100
  let sigma2 := back_iv / 100
  (sigma2 ^ 2 * T2 - sigma1 ^ 2 * T1) / (T2 - T1)

/-- `ForwardFactorScanner.calculate_forward_factor` (`ff_scanner.py` 172–197).
Success carries `(forward_vol, forward_factor)`; every caught exception and
the explicit negative-variance check carry an error message. -/
noncomputable def calculate_forward_factor
    (front_iv front_dte back_iv back_dte : ℚ) : Except String (ℝ × ℝ) :=
  if back_dte / 365 - front_dte / 365 = 0 then
    .error "float division by zero"
  else
    let forward_var := fwdVar front_iv front_dte back_iv back_dte
    if forward_var < 0 then
      .error "Negative forward variance"
    else if forward_var = 0 then
      .error "float division by zero"
    else
      let s : ℝ := Real.sqrt (forward_var : ℝ)
      .ok (s * 100, (((front_iv : ℝ) / 100 - s) / s) * 100)

/-! ## Term structure points and the §4.3 Pair Selector -/

/-- One per-expiration entry of the dict built by `group_by_expiration`
(`ff_scanner.py` 158–168): average IV, days to expiration, sample count. -/
structure TermPoint where
  iv : ℚ
  dte : ℤ
  count : ℕ
  deriving DecidableEq, Repr

/-- One entry of the `pairs` list of `find_best_pairs`
(`ff_scanner.py` 218–227).  Expiration dates are day ordinals (`ℤ`). -/
structure PairRec where
  front_date : ℤ
  front_iv : ℚ
  front_dte : ℤ
  back_date : ℤ
  back_iv : ℚ
  back_dte : ℤ
  forward_vol : ℝ
  forward_factor : ℝ

/-- The loop of `find_best_pairs` (`ff_scanner.py` 205–227) over the
DTE-sorted expiration ladder: for each adjacent pair invoke
`calculate_forward_factor`; on error `continue`, otherwise append a record. -/
noncomputable def pairsLoop : List (ℤ × TermPoint) → List PairRec
  | [] => []
  | [_] => []
  | (fd, f) :: (bd, b) :: rest =>
      (match calculate_forward_factor f.iv (f.dte : ℚ) b.iv (b.dte : ℚ) with
        | .error _ => []
        | .ok (vol, ff) =>
            [{ front_date := fd, front_iv := f.iv, front_dte := f.dte
               back_date := bd, back_iv := b.iv, back_dte := b.dte
               forward_vol := vol, forward_factor := ff }]) ++
      pairsLoop ((bd, b) :: rest)

/-- `ForwardFactorScanner.find_best_pairs` (`ff_scanner.py` 199–229):
sort the expirations by DTE (Python's stable `sorted`), then walk adjacent
pairs. -/
noncomputable def find_best_pairs (expirations : List (ℤ × TermPoint)) :
    List PairRec :=
  pairsLoop (expirations.mergeSort (fun x y => x.2.dte ≤ y.2.dte))

end FFScanner

namespace FFScanner

/-! ## Claims C1 and C2 — the calculator formula and the undefined cases -/

/-- **C1.** For every input with `back_dte > front_dte > 0`, letting
`T1 = front_dte/365`, `T2 = back_dte/365`, `sigma1 = front_iv/100`,
`sigma2 = back_iv/100` and
`forward_variance = (sigma2^2*T2 - sigma1^2*T1)/(T2 - T1)`: whenever
`forward_variance > 0`, `calculate_forward_factor` returns
`forward_vol = sqrt(forward_variance) * 100` and
`forward_factor = ((sigma1 - sqrt(forward_variance)) / sqrt(forward_variance)) * 100`. -/
theorem calculate_forward_factor_formula
    (front_iv front_dte back_iv back_dte : ℚ)
    (hfd : 0 < front_dte) (hlt : front_dte < back_dte)
    (hvar : 0 < fwdVar front_iv front_dte back_iv back_dte) :
    calculate_forward_factor front_iv front_dte back_iv back_dte =
      .ok (Real.sqrt ((((back_iv : ℝ) / 100) ^ 2 * ((back_dte : ℝ) / 365) -
              ((front_iv : ℝ) / 100) ^ 2 * ((front_dte : ℝ) / 365)) /
              ((back_dte : ℝ) / 365 - (front_dte : ℝ) / 365)) * 100,
            (((front_iv : ℝ) / 100 -
              Real.sqrt ((((back_iv : ℝ) / 100) ^ 2 * ((back_dte : ℝ) / 365) -
                ((front_iv : ℝ) / 100) ^ 2 * ((front_dte : ℝ) / 365)) /
                ((back_dte : ℝ) / 365 - (front_dte : ℝ) / 365))) /
              Real.sqrt ((((back_iv : ℝ) / 100) ^ 2 * ((back_dte : ℝ) / 365) -
                ((front_iv : ℝ) / 100) ^ 2 * ((front_dte : ℝ) / 365)) /
                ((back_dte : ℝ) / 365 - (front_dte : ℝ) / 365))) * 100) := by
  have hne : back_dte / 365 - front_dte / 365 ≠ (0 : ℚ) := by
    intro h
    have h' : back_dte = front_dte := by field_simp at h; linarith
    linarith
  have hcast : ((fwdVar front_iv front_dte back_iv back_dte : ℚ) : ℝ) =
      (((back_iv : ℝ) / 100) ^ 2 * ((back_dte : ℝ) / 365) -
        ((front_iv : ℝ) / 100) ^ 2 * ((front_dte : ℝ) / 365)) /
        ((back_dte : ℝ) / 365 - (front_dte : ℝ) / 365) := by
    simp only [fwdVar]
    push_cast
    ring
  simp only [calculate_forward_factor, if_neg hne, if_neg (not_lt.mpr hvar.le),
    if_neg hvar.ne', hcast]

/-- Concrete instance of `calculate_forward_factor_formula`:
`front_iv = 50, front_dte = 365, back_iv = 50, back_dte = 730` give
forward variance `1/4`, so forward vol `50` and forward factor `0`. -/
theorem calculate_forward_factor_formula_witness :
    calculate_forward_factor 50 365 50 730 = .ok (50, 0) := by
  have h := calculate_forward_factor_formula 50 365 50 730 (by norm_num)
    (by norm_num) (by norm_num [fwdVar])
  rw [h]
  have hval : (((50 : ℚ) : ℝ) / 100) ^ 2 * (((730 : ℚ) : ℝ) / 365) -
      (((50 : ℚ) : ℝ) / 100) ^ 2 * (((365 : ℚ) : ℝ) / 365) = 1 / 4 := by
    norm_num
  have hden : ((730 : ℚ) : ℝ) / 365 - ((365 : ℚ) : ℝ) / 365 = 1 := by norm_num
  have hq : ((((50 : ℚ) : ℝ) / 100) ^ 2 * (((730 : ℚ) : ℝ) / 365) -
      (((50 : ℚ) : ℝ) / 100) ^ 2 * (((365 : ℚ) : ℝ) / 365)) /
      (((730 : ℚ) : ℝ) / 365 - ((365 : ℚ) : ℝ) / 365) = (1 / 2 : ℝ) ^ 2 := by
    rw [hval, hden]
    norm_num
  rw [hq, Real.sqrt_sq (by norm_num : (0 : ℝ) ≤ 1 / 2)]
  norm_num

/-- **C2.** For every input with `back_dte > front_dte > 0` whose forward
variance is negative or exactly zero, `calculate_forward_factor` returns no
forward vol and no forward factor, only an error indication (the Python
exception is caught inside the function, never propagated), and the pair
selector loop of `find_best_pairs` emits no record for that adjacent pair and
continues with the remaining ladder. -/
theorem nonpositive_variance_undefined_and_skipped
    (fd bd : ℤ) (f b : TermPoint) (rest : List (ℤ × TermPoint))
    (h0 : 0 < f.dte) (hlt : f.dte < b.dte)
    (hvar : fwdVar f.iv (f.dte : ℚ) b.iv (b.dte : ℚ) ≤ 0) :
    (∃ msg, calculate_forward_factor f.iv (f.dte : ℚ) b.iv (b.dte : ℚ) =
      .error msg) ∧
    pairsLoop ((fd, f) :: (bd, b) :: rest) = pairsLoop ((bd, b) :: rest) := by
  have hne : (b.dte : ℚ) / 365 - (f.dte : ℚ) / 365 ≠ 0 := by
    intro h
    have h' : (b.dte : ℚ) = (f.dte : ℚ) := by field_simp at h; linarith
    have : b.dte = f.dte := by exact_mod_cast h'
    omega
  obtain ⟨msg, hmsg⟩ : ∃ msg,
      calculate_forward_factor f.iv (f.dte : ℚ) b.iv (b.dte : ℚ) =
        .error msg := by
    rcases lt_or_eq_of_le hvar with hv | hv
    · exact ⟨"Negative forward variance",
        by simp [calculate_forward_factor, if_neg hne, if_pos hv]⟩
    · exact ⟨"float division by zero",
        by simp [calculate_forward_factor, if_neg hne, hv]⟩
  exact ⟨⟨msg, hmsg⟩, by simp [pairsLoop, hmsg]⟩

/-- Concrete instance of `nonpositive_variance_undefined_and_skipped`:
front (IV 50 %, 30 d) and back (IV 10 %, 60 d) give a negative forward
variance, so the pair is skipped. -/
theorem nonpositive_variance_undefined_and_skipped_witness :
    (∃ msg, calculate_forward_factor (50 : ℚ) ((30 : ℤ) : ℚ) (10 : ℚ)
      ((60 : ℤ) : ℚ) = .error msg) ∧
    pairsLoop [((0 : ℤ), ⟨50, 30, 3⟩), ((1 : ℤ), ⟨10, 60, 3⟩)] =
      pairsLoop [((1 : ℤ), ⟨10, 60, 3⟩)] :=
  nonpositive_variance_undefined_and_skipped 0 1 ⟨50, 30, 3⟩ ⟨10, 60, 3⟩ []
    (by norm_num) (by norm_num) (by norm_num [fwdVar])

end FFScanner

namespace FFScanner

/-! ## `ff_nightly_scanner.py` — data model (lines 36–84)

Floats are idealised as `ℚ` (the opportunity values are parsed from decimal
JSON strings), ints as `ℤ`, date strings kept as `String`. -/

/-- The `Opportunity` dataclass (`ff_nightly_scanner.py` 36–59). -/
structure Opportunity where
  ticker : String
  forward_factor : ℚ
  signal : String
  front_date : String
  front_dte : ℤ
  front_iv : ℚ
  back_date : String
  back_dte : ℤ
  back_iv : ℚ
  forward_vol : ℚ
  scan_id : ℤ
  opportunity_id : ℤ
  has_earnings_soon : Bool := false
  deriving DecidableEq, Repr

/-- `Opportunity.is_inverted` (line 53): front IV strictly above back IV. -/
def Opportunity.is_inverted (o : Opportunity) : Bool :=
  decide (o.back_iv < o.front_iv)

/-- `Opportunity.get_dte_diff` (line 57). -/
def Opportunity.get_dte_diff (o : Opportunity) : ℤ :=
  o.back_dte - o.front_dte

/-- The `EarningsInfo` dataclass (`ff_nightly_scanner.py` 62–70). -/
structure EarningsInfo where
  ticker : String
  earnings_date : Option String
  has_earnings_soon : Bool
  front_is_pre_earnings : Bool
  back_is_post_earnings : Bool
  both_post_earnings : Bool
  deriving DecidableEq, Repr

/-! ## `FFScannerService.verify_forward_factor` (lines 205–226)

```
if opp.forward_vol == 0: return 0.0, False
calculated_ff = ((opp.front_iv / opp.forward_vol) - 1) * 100
matches = abs(calculated_ff - opp.forward_factor) < 2.0
return calculated_ff, matches
```
(the surrounding `try` never fires once the zero divisor is guarded). -/

/-- `FFScannerService.verify_forward_factor` (`ff_nightly_scanner.py`
205–226). -/
def verify_forward_factor (opp : Opportunity) : ℚ × Bool :=
  if opp.forward_vol = 0 then (0, false)
  else
    let calculated_ff := (opp.front_iv / opp.forward_vol - 1) * 100
    (calculated_ff, decide (|calculated_ff - opp.forward_factor| < 2))

/-! ## `FFScannerService.apply_quality_filters` (lines 284–334)

The Python appends one formatted string per failing gate; we model each
message by a constructor of `Reason` carrying the values interpolated into
the string. -/

/-- One rejection reason, one constructor per message of
`apply_quality_filters` (`ff_nightly_scanner.py` 294–331). -/
inductive Reason where
  | ffTooLow (ff : ℚ)
  | dteTooShort (dte : ℤ)
  | dteTooLong (dte : ℤ)
  | ivTooLow (iv : ℚ)
  | ivTooHigh (iv : ℚ)
  | falseSignal (front_iv back_iv ff : ℚ)
  | calcMismatch (reported calculated : ℚ)
  | dteDiffTooSmall (diff : ℤ)
  deriving DecidableEq, Repr

/-- Is this reason the earnings-conflict ("FALSE SIGNAL") message of filter 4? -/
def Reason.isFalseSignal : Reason → Bool
  | .falseSignal _ _ _ => true
  | _ => false

/-- Is this reason the calculation-mismatch message of filter 5? -/
def Reason.isCalcMismatch : Reason → Bool
  | .calcMismatch _ _ => true
  | _ => false

/-- `FFScannerService.apply_quality_filters` (`ff_nightly_scanner.py`
284–334).  The `earnings_info` parameter is taken but, exactly as in the
source, never consulted (filter 4 reads `opp.has_earnings_soon`).  Returns
`(is_quality_setup, rejection_reasons)`. -/
def apply_quality_filters (opp : Opportunity) (_earnings_info : Option EarningsInfo) :
    Bool × List Reason :=
  let r1 := if |opp.forward_factor| < 30 then [Reason.ffTooLow opp.forward_factor] else []
  let r2 := if opp.front_dte < 7 then [Reason.dteTooShort opp.front_dte] else []
  let r3 := if opp.front_dte > 180 then [Reason.dteTooLong opp.front_dte] else []
  let r4 := if opp.front_iv < 15 then [Reason.ivTooLow opp.front_iv] else []
  let r5 := if opp.front_iv > 150 then [Reason.ivTooHigh opp.front_iv] else []
  let r6 := if opp.has_earnings_soon && opp.is_inverted then
      (if |opp.forward_factor| < 40 then
        [Reason.falseSignal opp.front_iv opp.back_iv opp.forward_factor]
      else []) else []
  let v := verify_forward_factor opp
  let r7 := if v.2 then [] else [Reason.calcMismatch opp.forward_factor v.1]
  let r8 := if opp.get_dte_diff < 3 then [Reason.dteDiffTooSmall opp.get_dte_diff] else []
  let rejection_reasons := r1 ++ r2 ++ r3 ++ r4 ++ r5 ++ r6 ++ r7 ++ r8
  (rejection_reasons.isEmpty, rejection_reasons)

/-! ## Scoring (`ff_nightly_scanner.py` 228–282 and 409–444) -/

/-- `FFScannerService.calculate_probability` (`ff_nightly_scanner.py`
228–256). -/
def calculate_probability (opp : Opportunity) : ℚ :=
  let abs_ff := |opp.forward_factor|
  let base_prob : ℚ :=
    if abs_ff ≥ 80 then 85
    else if abs_ff ≥ 60 then 80
    else if abs_ff ≥ 40 then 75
    else if abs_ff ≥ 30 then 70
    else if abs_ff ≥ 20 then 65
    else 60
  if opp.has_earnings_soon then base_prob * (85 / 100) else base_prob

/-- `FFScannerService.calculate_risk_reward` (`ff_nightly_scanner.py`
258–282). -/
def calculate_risk_reward (opp : Opportunity) : ℚ :=
  let abs_ff := |opp.forward_factor|
  if abs_ff ≥ 80 then 5
  else if abs_ff ≥ 60 then 4
  else if abs_ff ≥ 40 then 7 / 2
  else if abs_ff ≥ 30 then 3
  else if abs_ff ≥ 20 then 5 / 2
  else 2

/-- `FFScannerService.calculate_rating` (`ff_nightly_scanner.py` 409–444):
base 5, bonuses and the final `max(0, min(10, rating))` clamp. -/
def calculate_rating (opp : Opportunity) (earnings_info : Option EarningsInfo)
    (probability risk_reward : ℚ) : ℤ :=
  let abs_ff := |opp.forward_factor|
  let r1 : ℤ := 5 +
    (if abs_ff ≥ 80 then 3 else if abs_ff ≥ 60 then 2 else if abs_ff ≥ 40 then 1 else 0)
  let r2 : ℤ := r1 +
    (match earnings_info with
      | some ei =>
          if ei.has_earnings_soon then
            (if ei.front_is_pre_earnings && ei.back_is_post_earnings then 1 else 0)
          else 0
      | none => 0)
  let r3 : ℤ := r2 + (if 20 ≤ opp.front_dte ∧ opp.front_dte ≤ 60 then 1 else 0)
  let r4 : ℤ := r3 - (if opp.is_inverted then 1 else 0)
  let r5 : ℤ := r4 + (if probability ≥ 80 then 1 else 0)
  let r6 : ℤ := r5 + (if risk_reward ≥ 4 then 1 else 0)
  max 0 (min 10 r6)

end FFScanner

namespace FFScanner

/-! ## The quality filter as a table of independent gates (spec §4.4)

`spec.md` presents the filter as eight independent gates; the claim theorems
compare `apply_quality_filters` against this table. -/

/-- One gate of the spec's §4.4 table: a failing condition and the reason it
contributes. -/
structure Gate where
  fails : Opportunity → Bool
  reason : Opportunity → Reason

/-- The eight gates of `apply_quality_filters`, in source order. -/
def qualityGates : List Gate :=
  [ ⟨fun o => decide (|o.forward_factor| < 30), fun o => .ffTooLow o.forward_factor⟩,
    ⟨fun o => decide (o.front_dte < 7), fun o => .dteTooShort o.front_dte⟩,
    ⟨fun o => decide (o.front_dte > 180), fun o => .dteTooLong o.front_dte⟩,
    ⟨fun o => decide (o.front_iv < 15), fun o => .ivTooLow o.front_iv⟩,
    ⟨fun o => decide (o.front_iv > 150), fun o => .ivTooHigh o.front_iv⟩,
    ⟨fun o => o.has_earnings_soon && o.is_inverted && decide (|o.forward_factor| < 40),
      fun o => .falseSignal o.front_iv o.back_iv o.forward_factor⟩,
    ⟨fun o => !(verify_forward_factor o).2,
      fun o => .calcMismatch o.forward_factor (verify_forward_factor o).1⟩,
    ⟨fun o => decide (o.get_dte_diff < 3), fun o => .dteDiffTooSmall o.get_dte_diff⟩ ]

/-- Filtering a gate list and emitting each failing gate's reason is a fold
appending one singleton per failing gate. -/
theorem filter_map_eq_foldr (p : Gate → Bool) (f : Gate → Reason) (gs : List Gate) :
    (gs.filter p).map f =
      gs.foldr (fun g acc => (if p g then [f g] else []) ++ acc) [] := by
  induction gs with
  | nil => rfl
  | cons g gs ih => by_cases h : p g <;> simp [List.filter_cons, h, ih]

theorem exists_mem_ite_singleton {α} {c : Prop} [Decidable c] {x : α} {P : α → Prop} :
    (∃ r ∈ (if c then [x] else ([] : List α)), P r) ↔ c ∧ P x := by
  split_ifs with h <;> simp [h]

theorem exists_mem_ite_nil_singleton {α} {c : Prop} [Decidable c] {x : α} {P : α → Prop} :
    (∃ r ∈ (if c then ([] : List α) else [x]), P r) ↔ ¬c ∧ P x := by
  split_ifs with h <;> simp [h]

theorem exists_mem_ite_ite_singleton {α} {b : Bool} {c : Prop} [Decidable c] {x : α}
    {P : α → Prop} :
    (∃ r ∈ (if b then (if c then [x] else []) else ([] : List α)), P r) ↔
      b = true ∧ c ∧ P x := by
  constructor
  · rintro ⟨r, hr, hP⟩
    cases b with
    | false => simp at hr
    | true =>
      rw [if_pos rfl] at hr
      split_ifs at hr with hc
      · simp only [List.mem_singleton] at hr
        subst hr
        exact ⟨rfl, hc, hP⟩
      · simp at hr
  · rintro ⟨hb, hc, hP⟩
    subst hb
    exact ⟨x, by simp [hc], hP⟩

/-- The rejection-reason list of `apply_quality_filters`, written as the
append of its eight per-gate segments (definitional). -/
theorem rejection_reasons_eq (opp : Opportunity) (ei : Option EarningsInfo) :
    (apply_quality_filters opp ei).2 =
      (if |opp.forward_factor| < 30 then [Reason.ffTooLow opp.forward_factor] else []) ++
      (if opp.front_dte < 7 then [Reason.dteTooShort opp.front_dte] else []) ++
      (if opp.front_dte > 180 then [Reason.dteTooLong opp.front_dte] else []) ++
      (if opp.front_iv < 15 then [Reason.ivTooLow opp.front_iv] else []) ++
      (if opp.front_iv > 150 then [Reason.ivTooHigh opp.front_iv] else []) ++
      (if opp.has_earnings_soon && opp.is_inverted then
        (if |opp.forward_factor| < 40 then
          [Reason.falseSignal opp.front_iv opp.back_iv opp.forward_factor]
        else []) else []) ++
      (if (verify_forward_factor opp).2 then []
        else [Reason.calcMismatch opp.forward_factor (verify_forward_factor opp).1]) ++
      (if opp.get_dte_diff < 3 then [Reason.dteDiffTooSmall opp.get_dte_diff] else []) := rfl

/-- A "FALSE SIGNAL" (earnings-conflict) reason is accumulated exactly when
the opportunity has `has_earnings_soon`, an inverted structure, and
`|forward_factor| < 40`. -/
theorem falseSignal_mem_iff (opp : Opportunity) (ei : Option EarningsInfo) :
    (∃ r ∈ (apply_quality_filters opp ei).2, r.isFalseSignal = true) ↔
      opp.has_earnings_soon = true ∧ opp.back_iv < opp.front_iv ∧
        |opp.forward_factor| < 40 := by
  rw [rejection_reasons_eq]
  simp only [List.mem_append, or_and_right, exists_or, exists_mem_ite_singleton,
    exists_mem_ite_nil_singleton, exists_mem_ite_ite_singleton, Reason.isFalseSignal,
    Bool.and_eq_true, Opportunity.is_inverted, decide_eq_true_eq]
  simp
  aesop

/-- A calculation-mismatch reason is accumulated exactly when
`verify_forward_factor` reports no match. -/
theorem calcMismatch_mem_iff (opp : Opportunity) (ei : Option EarningsInfo) :
    (∃ r ∈ (apply_quality_filters opp ei).2, r.isCalcMismatch = true) ↔
      (verify_forward_factor opp).2 = false := by
  rw [rejection_reasons_eq]
  simp only [List.mem_append, or_and_right, exists_or, exists_mem_ite_singleton,
    exists_mem_ite_nil_singleton, exists_mem_ite_ite_singleton, Reason.isCalcMismatch,
    Bool.and_eq_true, decide_eq_true_eq]
  simp
  aesop

/-- **C3.** For every `Opportunity` and optional `EarningsInfo`,
`apply_quality_filters` evaluates all gates without short-circuiting: its
reason list is exactly the list of reasons of the failing gates of the §4.4
gate table (one reason per failing gate, exhaustive, in gate order), and
`is_quality = true` if and only if the accumulated reason list is empty. -/
theorem apply_quality_filters_exhaustive (opp : Opportunity) (ei : Option EarningsInfo) :
    (apply_quality_filters opp ei).2 =
      (qualityGates.filter (fun g => g.fails opp)).map (fun g => g.reason opp) ∧
    ((apply_quality_filters opp ei).1 = true ↔
      (apply_quality_filters opp ei).2 = []) := by
  constructor
  · rw [filter_map_eq_foldr]
    show (_ ++ _ ++ _ ++ _ ++ _ ++ _ ++ _ ++ _ : List Reason) = _
    simp only [qualityGates, List.foldr_cons, List.foldr_nil, List.append_nil,
      List.append_assoc]
    congr 1
    · simp
    congr 1
    · simp
    congr 1
    · simp
    congr 1
    · simp
    congr 1
    · simp
    congr 1
    · cases hab : opp.has_earnings_soon && opp.is_inverted
      · simp [hab]
      · by_cases hff : |opp.forward_factor| < 40 <;> simp [hab, hff]
    congr 1
    · cases hv : (verify_forward_factor opp).2 <;> simp [hv]
    · simp
  · have h : (apply_quality_filters opp ei).1 =
        (apply_quality_filters opp ei).2.isEmpty := rfl
    rw [h, List.isEmpty_iff]

end FFScanner

namespace FFScanner

/-! ## Claim C6 — the earnings-conflict gate -/

/-- **C6.** For every `Opportunity` with `has_earnings_soon` and an inverted
term structure (`front_iv > back_iv`), the earnings-conflict gate of
`apply_quality_filters` adds its rejection reason exactly when
`|forward_factor| < 40`; when `has_earnings_soon` is false or the structure
is not inverted, the gate never adds a reason. -/
theorem earnings_conflict_gate (opp : Opportunity) (ei : Option EarningsInfo) :
    (opp.has_earnings_soon = true → opp.back_iv < opp.front_iv →
      ((∃ r ∈ (apply_quality_filters opp ei).2, r.isFalseSignal = true) ↔
        |opp.forward_factor| < 40)) ∧
    ((opp.has_earnings_soon = false ∨ opp.front_iv ≤ opp.back_iv) →
      ∀ r ∈ (apply_quality_filters opp ei).2, r.isFalseSignal = false) := by
  constructor
  · intro hes hinv
    rw [falseSignal_mem_iff]
    simp [hes, hinv]
  · intro hno r hr
    by_contra hfs
    have hmem : ∃ r ∈ (apply_quality_filters opp ei).2, r.isFalseSignal = true :=
      ⟨r, hr, eq_true_of_ne_false hfs⟩
    rw [falseSignal_mem_iff] at hmem
    rcases hno with h | h
    · rw [h] at hmem
      exact Bool.false_ne_true hmem.1
    · exact absurd hmem.2.1 (not_lt.mpr h)

/-- Concrete instance of `earnings_conflict_gate` (the spec's own example):
`has_earnings_soon = true`, `front_iv = 40 > back_iv = 30`; with
`forward_factor = 35` the FALSE-SIGNAL reason is added, with
`forward_factor = 45` it is not. -/
theorem earnings_conflict_gate_witness :
    (∃ r ∈ (apply_quality_filters
      { ticker := "X", forward_factor := 35, signal := "SELL",
        front_date := "2025-01-17", front_dte := 30, front_iv := 40,
        back_date := "2025-02-21", back_dte := 60, back_iv := 30,
        forward_vol := 30, scan_id := 1, opportunity_id := 1,
        has_earnings_soon := true } none).2, r.isFalseSignal = true) ∧
    ¬ (∃ r ∈ (apply_quality_filters
      { ticker := "X", forward_factor := 45, signal := "SELL",
        front_date := "2025-01-17", front_dte := 30, front_iv := 40,
        back_date := "2025-02-21", back_dte := 60, back_iv := 30,
        forward_vol := 30, scan_id := 1, opportunity_id := 1,
        has_earnings_soon := true } none).2, r.isFalseSignal = true) := by
  constructor
  · exact ((earnings_conflict_gate _ none).1 rfl (by norm_num)).mpr (by norm_num)
  · intro h
    exact absurd (((earnings_conflict_gate _ none).1 rfl (by norm_num)).mp h)
      (by norm_num)

/-! ## Claim C10 — zero stored forward vol -/

/-- **C10.** For every `Opportunity` whose stored `forward_vol` is `0`,
`verify_forward_factor` returns `(0.0, False)` (the division is guarded, no
exception), so `apply_quality_filters` always accumulates a
calculation-mismatch reason and marks the opportunity not-quality, whatever
its other fields. -/
theorem zero_forward_vol_always_rejected (opp : Opportunity)
    (ei : Option EarningsInfo) (h : opp.forward_vol = 0) :
    verify_forward_factor opp = (0, false) ∧
    (∃ r ∈ (apply_quality_filters opp ei).2, r.isCalcMismatch = true) ∧
    (apply_quality_filters opp ei).1 = false := by
  have hv : verify_forward_factor opp = (0, false) := by
    simp [verify_forward_factor, h]
  have hmem : ∃ r ∈ (apply_quality_filters opp ei).2, r.isCalcMismatch = true :=
    (calcMismatch_mem_iff opp ei).mpr (by rw [hv])
  refine ⟨hv, hmem, ?_⟩
  obtain ⟨r, hr, _⟩ := hmem
  have h1 : (apply_quality_filters opp ei).1 =
      (apply_quality_filters opp ei).2.isEmpty := rfl
  cases hE : (apply_quality_filters opp ei).2 with
  | nil => rw [hE] at hr; simp at hr
  | cons a l => rw [h1, hE]; rfl

/-- Concrete instance of `zero_forward_vol_always_rejected`. -/
theorem zero_forward_vol_always_rejected_witness :
    verify_forward_factor
      { ticker := "X", forward_factor := 50, signal := "SELL",
        front_date := "2025-01-17", front_dte := 30, front_iv := 40,
        back_date := "2025-02-21", back_dte := 60, back_iv := 35,
        forward_vol := 0, scan_id := 1, opportunity_id := 1,
        has_earnings_soon := false } = (0, false) ∧
    (∃ r ∈ (apply_quality_filters
      { ticker := "X", forward_factor := 50, signal := "SELL",
        front_date := "2025-01-17", front_dte := 30, front_iv := 40,
        back_date := "2025-02-21", back_dte := 60, back_iv := 35,
        forward_vol := 0, scan_id := 1, opportunity_id := 1,
        has_earnings_soon := false } none).2, r.isCalcMismatch = true) ∧
    (apply_quality_filters
      { ticker := "X", forward_factor := 50, signal := "SELL",
        front_date := "2025-01-17", front_dte := 30, front_iv := 40,
        back_date := "2025-02-21", back_dte := 60, back_iv := 35,
        forward_vol := 0, scan_id := 1, opportunity_id := 1,
        has_earnings_soon := false } none).1 = false :=
  zero_forward_vol_always_rejected _ none rfl

end FFScanner

namespace FFScanner

/-! ## Claim C4 — what the calculation-consistency gate actually re-derives -/

/-- Modelled from the spec (§4.2/§4.4), for comparison with the code: the
re-derived forward factor that the spec's calculation-consistency gate
mandates, computed by the §4.2 formula from
`(front_iv, front_dte, back_iv, back_dte)` alone. -/
noncomputable def specRederivedFF (opp : Opportunity) : ℝ :=
  let T1 : ℝ := (opp.front_dte : ℝ) / 365
  let T2 : ℝ := (opp.back_dte : ℝ) / 365
  let sigma1 : ℝ := (opp.front_iv : ℝ) / 100
  let sigma2 : ℝ := (opp.back_iv : ℝ) / 100
  let fv : ℝ := (sigma2 ^ 2 * T2 - sigma1 ^ 2 * T1) / (T2 - T1)
  ((sigma1 - Real.sqrt fv) / Real.sqrt fv) * 100

/-- An opportunity whose stored `forward_vol` (20) is not the §4.2 forward
vol of its own inputs (40), but whose stored `forward_factor` (100) does
match `(front_iv / forward_vol - 1) * 100`. -/
def oppStaleVol : Opportunity :=
  { ticker := "X", forward_factor := 100, signal := "SELL",
    front_date := "2025-01-17", front_dte := 30, front_iv := 40,
    back_date := "2025-02-21", back_dte := 60, back_iv := 40,
    forward_vol := 20, scan_id := 1, opportunity_id := 1,
    has_earnings_soon := false }

/-- **C4 is false as stated**: on `oppStaleVol` the §4.2 re-derivation from
`(front_iv, front_dte, back_iv, back_dte)` gives forward factor `0`, which
differs from the stored `forward_factor = 100` by `100 ≥ 2` percentage
points — yet `verify_forward_factor` compares against the *stored*
`forward_vol` instead, reports a match, and the gate adds no rejection
reason. -/
theorem calc_consistency_gate_counterexample :
    verify_forward_factor oppStaleVol = (100, true) ∧
    (∀ r ∈ (apply_quality_filters oppStaleVol none).2, r.isCalcMismatch = false) ∧
    2 ≤ |specRederivedFF oppStaleVol - (oppStaleVol.forward_factor : ℝ)| := by
  have hverify : verify_forward_factor oppStaleVol = (100, true) := by
    norm_num [verify_forward_factor, oppStaleVol, Prod.mk.injEq]
  have hreasons : (apply_quality_filters oppStaleVol none).2 = [] := by
    rw [rejection_reasons_eq, hverify]
    norm_num [oppStaleVol, Opportunity.is_inverted, Opportunity.get_dte_diff]
  refine ⟨hverify, by rw [hreasons]; simp, ?_⟩
  have h0 : specRederivedFF oppStaleVol = 0 := by
    simp only [specRederivedFF, oppStaleVol]
    push_cast
    have hfv : (((40 : ℝ) / 100) ^ 2 * ((60 : ℝ) / 365) -
        ((40 : ℝ) / 100) ^ 2 * ((30 : ℝ) / 365)) /
        ((60 : ℝ) / 365 - (30 : ℝ) / 365) = (2 / 5 : ℝ) ^ 2 := by
      norm_num
    rw [hfv, Real.sqrt_sq (by norm_num : (0 : ℝ) ≤ 2 / 5)]
    norm_num
  rw [h0]
  simp only [oppStaleVol]
  norm_num

/-- **C4 (amended).** The gate does not re-derive from the DTEs: it compares
the stored `forward_factor` against `(front_iv / forward_vol - 1) * 100`
computed from the *stored* `forward_vol`, and adds its rejection reason
exactly when `forward_vol = 0` or that value differs from the stored
`forward_factor` by at least 2.0 percentage points. -/
theorem calc_consistency_gate_uses_stored_vol (opp : Opportunity)
    (ei : Option EarningsInfo) :
    (∃ r ∈ (apply_quality_filters opp ei).2, r.isCalcMismatch = true) ↔
      (opp.forward_vol = 0 ∨
        2 ≤ |(opp.front_iv / opp.forward_vol - 1) * 100 - opp.forward_factor|) := by
  rw [calcMismatch_mem_iff]
  unfold verify_forward_factor
  split_ifs with h
  · simp [h]
  · simp [h, not_lt]

end FFScanner

namespace FFScanner

/-! ## Claim C5 — internal consistency of calculator and verifier -/

/-- The comparison value `calculated_ff = ((front_iv / forward_vol) - 1) * 100`
of `verify_forward_factor` (`ff_nightly_scanner.py` line 217), lifted to
exact real arithmetic so that it can be applied to the exact outputs of
`calculate_forward_factor`. -/
noncomputable def verifyCalculatedFF (front_iv forward_vol : ℝ) : ℝ :=
  (front_iv / forward_vol - 1) * 100

/-- **C5.** For every valid input with `back_dte > front_dte > 0` and
positive forward variance, if an opportunity stores exactly the
`(forward_vol, forward_factor)` produced by `calculate_forward_factor` on
its own inputs, then the re-derivation of `verify_forward_factor` agrees
with the stored forward factor exactly (difference `0`, within the 2-point
tolerance, and the divisor `forward_vol` is nonzero); recomputing from the
same inputs yields identical output (determinism). -/
theorem verification_agrees_with_calculator
    (front_iv front_dte back_iv back_dte : ℚ)
    (hfd : 0 < front_dte) (hlt : front_dte < back_dte)
    (hvar : 0 < fwdVar front_iv front_dte back_iv back_dte)
    (vol ff : ℝ)
    (hok : calculate_forward_factor front_iv front_dte back_iv back_dte =
      .ok (vol, ff)) :
    calculate_forward_factor front_iv front_dte back_iv back_dte =
      calculate_forward_factor front_iv front_dte back_iv back_dte ∧
    vol ≠ 0 ∧
    verifyCalculatedFF (front_iv : ℝ) vol = ff ∧
    |verifyCalculatedFF (front_iv : ℝ) vol - ff| = 0 ∧
    |verifyCalculatedFF (front_iv : ℝ) vol - ff| < 2 := by
  have hne : back_dte / 365 - front_dte / 365 ≠ (0 : ℚ) := by
    intro h
    have h' : back_dte = front_dte := by field_simp at h; linarith
    linarith
  have hs : (0 : ℝ) < Real.sqrt ((fwdVar front_iv front_dte back_iv back_dte : ℚ) : ℝ) :=
    Real.sqrt_pos.mpr (by exact_mod_cast hvar)
  simp only [calculate_forward_factor, if_neg hne, if_neg (not_lt.mpr hvar.le),
    if_neg hvar.ne', Except.ok.injEq, Prod.mk.injEq] at hok
  obtain ⟨hvol, hff⟩ := hok
  subst hvol hff
  have hagree : verifyCalculatedFF (front_iv : ℝ)
      (Real.sqrt ((fwdVar front_iv front_dte back_iv back_dte : ℚ) : ℝ) * 100) =
      (((front_iv : ℝ) / 100 -
        Real.sqrt ((fwdVar front_iv front_dte back_iv back_dte : ℚ) : ℝ)) /
        Real.sqrt ((fwdVar front_iv front_dte back_iv back_dte : ℚ) : ℝ)) * 100 := by
    unfold verifyCalculatedFF
    field_simp
    ring
  refine ⟨rfl, by positivity, hagree, ?_, ?_⟩
  · rw [hagree, sub_self, abs_zero]
  · rw [hagree, sub_self, abs_zero]
    norm_num

/-- Concrete instance of `verification_agrees_with_calculator` at
`front_iv = 30, front_dte = 365, back_iv = 30, back_dte = 730` (forward vol
`30`, forward factor `0`). -/
theorem verification_agrees_with_calculator_witness :
    (30 : ℝ) ≠ 0 ∧
    verifyCalculatedFF ((30 : ℚ) : ℝ) 30 = 0 ∧
    |verifyCalculatedFF ((30 : ℚ) : ℝ) 30 - 0| = 0 ∧
    |verifyCalculatedFF ((30 : ℚ) : ℝ) 30 - 0| < 2 := by
  have h1 : fwdVar 30 365 30 730 = 9 / 100 := by norm_num [fwdVar]
  have hok : calculate_forward_factor 30 365 30 730 = .ok (30, 0) := by
    simp only [calculate_forward_factor, h1]
    rw [if_neg (by norm_num), if_neg (by norm_num), if_neg (by norm_num)]
    have hq : (((9 / 100 : ℚ)) : ℝ) = (3 / 10 : ℝ) ^ 2 := by norm_num
    rw [hq, Real.sqrt_sq (by norm_num : (0 : ℝ) ≤ 3 / 10)]
    norm_num
  have h := verification_agrees_with_calculator 30 365 30 730 (by norm_num)
    (by norm_num) (by norm_num [fwdVar]) 30 0 hok
  exact ⟨h.2.1, h.2.2.1, h.2.2.2.1, h.2.2.2.2⟩

end FFScanner

namespace FFScanner

/-! ## Claim C7 — rating clamp and monotonicity in `|forward_factor|` -/

/-- `calculate_probability` is monotone in `|forward_factor|`, all other
fields fixed. -/
theorem calculate_probability_mono (opp : Opportunity) (f₁ f₂ : ℚ)
    (hab : |f₁| ≤ |f₂|) :
    calculate_probability { opp with forward_factor := f₁ } ≤
      calculate_probability { opp with forward_factor := f₂ } := by
  dsimp only [calculate_probability]
  have hbase : (if |f₁| ≥ 80 then (85 : ℚ) else if |f₁| ≥ 60 then 80
      else if |f₁| ≥ 40 then 75 else if |f₁| ≥ 30 then 70
      else if |f₁| ≥ 20 then 65 else 60) ≤
      (if |f₂| ≥ 80 then 85 else if |f₂| ≥ 60 then 80
      else if |f₂| ≥ 40 then 75 else if |f₂| ≥ 30 then 70
      else if |f₂| ≥ 20 then 65 else 60) := by
    split_ifs <;> linarith
  cases h : opp.has_earnings_soon
  · simpa [h] using hbase
  · simp only [h, if_true]
    exact mul_le_mul_of_nonneg_right hbase (by norm_num)

/-- `calculate_risk_reward` is monotone in `|forward_factor|`, all other
fields fixed. -/
theorem calculate_risk_reward_mono (opp : Opportunity) (f₁ f₂ : ℚ)
    (hab : |f₁| ≤ |f₂|) :
    calculate_risk_reward { opp with forward_factor := f₁ } ≤
      calculate_risk_reward { opp with forward_factor := f₂ } := by
  dsimp only [calculate_risk_reward]
  split_ifs <;> linarith

/-- `calculate_rating` is monotone in `|forward_factor|`, probability and
risk/reward (holding the remaining opportunity fields and earnings info
fixed). -/
theorem calculate_rating_mono (opp : Opportunity) (ei : Option EarningsInfo)
    (f₁ f₂ p₁ p₂ rr₁ rr₂ : ℚ) (hf : |f₁| ≤ |f₂|) (hp : p₁ ≤ p₂)
    (hrr : rr₁ ≤ rr₂) :
    calculate_rating { opp with forward_factor := f₁ } ei p₁ rr₁ ≤
      calculate_rating { opp with forward_factor := f₂ } ei p₂ rr₂ := by
  dsimp only [calculate_rating, Opportunity.is_inverted]
  refine max_le_max le_rfl (min_le_min le_rfl ?_)
  have hffB : (if |f₁| ≥ 80 then (3 : ℤ) else if |f₁| ≥ 60 then 2
      else if |f₁| ≥ 40 then 1 else 0) ≤
      (if |f₂| ≥ 80 then 3 else if |f₂| ≥ 60 then 2
      else if |f₂| ≥ 40 then 1 else 0) := by
    split_ifs <;> linarith
  have hpB : (if p₁ ≥ 80 then (1 : ℤ) else 0) ≤
      (if p₂ ≥ 80 then 1 else 0) := by
    split_ifs <;> linarith
  have hrB : (if rr₁ ≥ 4 then (1 : ℤ) else 0) ≤
      (if rr₂ ≥ 4 then 1 else 0) := by
    split_ifs <;> linarith
  linarith [hffB, hpB, hrB]

/-- **C7.** `calculate_rating` always returns an integer in `[0, 10]`, for
every combination of opportunity, earnings info, probability and
risk/reward; and holding every other input fixed while increasing
`|forward_factor|` (with probability and risk/reward recomputed from the
same opportunity by `calculate_probability` and `calculate_risk_reward`),
the rating is monotonically non-decreasing, up to the clamp ceiling 10. -/
theorem calculate_rating_range_and_monotone (opp : Opportunity)
    (ei : Option EarningsInfo) (p rr : ℚ) (f₁ f₂ : ℚ) :
    (0 ≤ calculate_rating opp ei p rr ∧ calculate_rating opp ei p rr ≤ 10) ∧
    (|f₁| ≤ |f₂| →
      calculate_rating { opp with forward_factor := f₁ } ei
          (calculate_probability { opp with forward_factor := f₁ })
          (calculate_risk_reward { opp with forward_factor := f₁ }) ≤
        calculate_rating { opp with forward_factor := f₂ } ei
          (calculate_probability { opp with forward_factor := f₂ })
          (calculate_risk_reward { opp with forward_factor := f₂ })) := by
  constructor
  · constructor
    · exact le_max_left 0 _
    · exact max_le (by norm_num) (min_le_left _ _)
  · intro hab
    exact calculate_rating_mono opp ei f₁ f₂ _ _ _ _ hab
      (calculate_probability_mono opp f₁ f₂ hab)
      (calculate_risk_reward_mono opp f₁ f₂ hab)

/-- Concrete instance of `calculate_rating_range_and_monotone`: range at one
input, and monotonicity from `forward_factor = 30` to `100`. -/
theorem calculate_rating_range_and_monotone_witness :
    (0 ≤ calculate_rating
      { ticker := "X", forward_factor := 50, signal := "SELL",
        front_date := "2025-01-17", front_dte := 30, front_iv := 40,
        back_date := "2025-02-21", back_dte := 60, back_iv := 45,
        forward_vol := 38, scan_id := 1, opportunity_id := 1,
        has_earnings_soon := false } none 0 0 ∧
      calculate_rating
      { ticker := "X", forward_factor := 50, signal := "SELL",
        front_date := "2025-01-17", front_dte := 30, front_iv := 40,
        back_date := "2025-02-21", back_dte := 60, back_iv := 45,
        forward_vol := 38, scan_id := 1, opportunity_id := 1,
        has_earnings_soon := false } none 0 0 ≤ 10) ∧
    calculate_rating
      { ticker := "X", forward_factor := (30 : ℚ), signal := "SELL",
        front_date := "2025-01-17", front_dte := 30, front_iv := 40,
        back_date := "2025-02-21", back_dte := 60, back_iv := 45,
        forward_vol := 38, scan_id := 1, opportunity_id := 1,
        has_earnings_soon := false } none
      (calculate_probability
        { ticker := "X", forward_factor := (30 : ℚ), signal := "SELL",
          front_date := "2025-01-17", front_dte := 30, front_iv := 40,
          back_date := "2025-02-21", back_dte := 60, back_iv := 45,
          forward_vol := 38, scan_id := 1, opportunity_id := 1,
          has_earnings_soon := false })
      (calculate_risk_reward
        { ticker := "X", forward_factor := (30 : ℚ), signal := "SELL",
          front_date := "2025-01-17", front_dte := 30, front_iv := 40,
          back_date := "2025-02-21", back_dte := 60, back_iv := 45,
          forward_vol := 38, scan_id := 1, opportunity_id := 1,
          has_earnings_soon := false }) ≤
    calculate_rating
      { ticker := "X", forward_factor := (100 : ℚ), signal := "SELL",
        front_date := "2025-01-17", front_dte := 30, front_iv := 40,
        back_date := "2025-02-21", back_dte := 60, back_iv := 45,
        forward_vol := 38, scan_id := 1, opportunity_id := 1,
        has_earnings_soon := false } none
      (calculate_probability
        { ticker := "X", forward_factor := (100 : ℚ), signal := "SELL",
          front_date := "2025-01-17", front_dte := 30, front_iv := 40,
          back_date := "2025-02-21", back_dte := 60, back_iv := 45,
          forward_vol := 38, scan_id := 1, opportunity_id := 1,
          has_earnings_soon := false })
      (calculate_risk_reward
        { ticker := "X", forward_factor := (100 : ℚ), signal := "SELL",
          front_date := "2025-01-17", front_dte := 30, front_iv := 40,
          back_date := "2025-02-21", back_dte := 60, back_iv := 45,
          forward_vol := 38, scan_id := 1, opportunity_id := 1,
          has_earnings_soon := false }) :=
  ⟨(calculate_rating_range_and_monotone _ none 0 0 30 100).1,
    (calculate_rating_range_and_monotone
      { ticker := "X", forward_factor := 50, signal := "SELL",
        front_date := "2025-01-17", front_dte := 30, front_iv := 40,
        back_date := "2025-02-21", back_dte := 60, back_iv := 45,
        forward_vol := 38, scan_id := 1, opportunity_id := 1,
        has_earnings_soon := false } none 0 0 30 100).2 (by norm_num)⟩

end FFScanner

namespace FFScanner

/-! ## §4.1 Term Structure Builder — `group_by_expiration`
(`ff_scanner.py` 111–170)

One raw option record carries the fields the code reads.  Each field is
`Option`al where the Python guards a missing key (`KeyError`/`TypeError`
caught → contract skipped) or uses `.get` with a `None` default:
* `delta` — `option['greeks'].get('delta')`;
* `strike` — `option['details']['strike_price']`;
* `exp_date` — `parse_expiration_date(option['details']['expiration_date'])`
  as a day ordinal; `none` when the key is missing or the string does not
  parse (`parse_expiration_date` returns `None`), both of which skip the
  contract;
* `implied_volatility` — `option.get('implied_volatility')`. -/
structure RawOption where
  delta : Option ℚ
  strike : Option ℚ
  exp_date : Option ℤ
  implied_volatility : Option ℚ
  deriving DecidableEq, Repr

/-- The stock-price estimation loop (`ff_scanner.py` 115–126): the first
option whose delta is present (and truthy) with `0.45 ≤ |delta| ≤ 0.55` and
whose strike is readable contributes its strike; an option passing the delta
test but missing its strike raises inside the `try` and is skipped. -/
def estimateStockPrice (options_data : List RawOption) : Option ℚ :=
  options_data.findSome? (fun o =>
    match o.delta, o.strike with
    | some d, some s =>
        if d ≠ 0 ∧ 45 / 100 ≤ |d| ∧ |d| ≤ 55 / 100 then some s else none
    | _, _ => none)

/-- The per-contract filter of the grouping loop (`ff_scanner.py` 132–155):
readable and parseable expiration date, readable strike within 10 % of the
price estimate, implied volatility present with `0 < iv ≤ 500`.  Returns the
`(expiration, iv)` contribution of a surviving contract. -/
def qualifies (stock_price : ℚ) (o : RawOption) : Option (ℤ × ℚ) :=
  match o.exp_date with
  | none => none
  | some e =>
      match o.strike with
      | none => none
      | some strike =>
          if |strike - stock_price| / stock_price > 1 / 10 then none
          else
            match o.implied_volatility with
            | none => none
            | some iv => if iv ≤ 0 ∨ iv > 500 then none else some (e, iv)

/-- All `(expiration, iv)` contributions, in list order. -/
def survivors (stock_price : ℚ) (options_data : List RawOption) :
    List (ℤ × ℚ) :=
  options_data.filterMap (qualifies stock_price)

/-- The `iv_list` stored under expiration `e` by the grouping loop. -/
def ivsAt (e : ℤ) (svs : List (ℤ × ℚ)) : List ℚ :=
  (svs.filter (fun x => x.1 = e)).map (fun x => x.2)

/-- First-occurrence deduplication — the key order of a Python dict built by
appending. -/
def dedupFirst (seen : List ℤ) : List ℤ → List ℤ
  | [] => []
  | e :: rest =>
      if e ∈ seen then dedupFirst seen rest
      else e :: dedupFirst (e :: seen) rest

/-- The body of the result-building loop (`ff_scanner.py` 158–168): for one
expiration `e`, keep it only when at least 3 contracts survived
(`len(iv_list) >= 3`), average their IVs, and require a truthy positive DTE
(`if dte and dte > 0`). -/
def termPointAt (today : ℤ) (svs : List (ℤ × ℚ)) (e : ℤ) :
    Option (ℤ × TermPoint) :=
  let iv_list := ivsAt e svs
  if 3 ≤ iv_list.length then
    let avg_iv := iv_list.sum / (iv_list.length : ℚ)
    let dte := e - today
    if dte ≠ 0 ∧ dte > 0 then
      some (e, { iv := avg_iv, dte := dte, count := iv_list.length })
    else none
  else none

/-- `ForwardFactorScanner.group_by_expiration` (`ff_scanner.py` 111–170).
`today` is the reference date of `calculate_dte` as a day ordinal.  Returns
the expiration → TermPoint association in dict insertion order.  Note the
Python `if not stock_price` treats an estimate of `0.0` like a missing one,
and `if dte and dte > 0` tests `dte` for truthiness before positivity. -/
def group_by_expiration (today : ℤ) (options_data : List RawOption) :
    List (ℤ × TermPoint) :=
  match estimateStockPrice options_data with
  | none => []
  | some stock_price =>
      if stock_price = 0 then []
      else
        let svs := survivors stock_price options_data
        (dedupFirst [] (svs.map (fun x => x.1))).filterMap (termPointAt today svs)

end FFScanner

namespace FFScanner

/-! ## Claim C8 — supporting lemmas and theorem -/

/-- `termPointAt` only ever emits a pair keyed by its own expiration. -/
theorem termPointAt_key (today : ℤ) (svs : List (ℤ × ℚ)) (k : ℤ)
    (pr : ℤ × TermPoint) (h : termPointAt today svs k = some pr) :
    pr.1 = k := by
  simp only [termPointAt] at h
  split_ifs at h with h1 h2
  · simp only [Option.some.injEq] at h
    rw [← h]

/-- Looking up a key in a `filterMap` whose emitted pairs are keyed by their
source element. -/
theorem lookup_filterMap_keyed (f : ℤ → Option (ℤ × TermPoint))
    (hf : ∀ k pr, f k = some pr → pr.1 = k) (l : List ℤ) (e : ℤ) :
    (l.filterMap f).lookup e =
      if e ∈ l then (f e).map (fun pr => pr.2) else none := by
  induction l with
  | nil => simp
  | cons k rest ih =>
    rw [List.filterMap_cons]
    cases hfk : f k with
    | none =>
      rw [ih]
      by_cases hek : e = k
      · subst hek
        simp [hfk]
      · simp [hek, List.mem_cons]
    | some pr =>
      obtain ⟨k', v⟩ := pr
      have hk : k' = k := hf k (k', v) hfk
      rw [hk] at hfk ⊢
      by_cases hek : e = k
      · simp [List.lookup, hek, hfk]
      · have hbe : (e == k) = false := by simp [hek]
        simp [List.lookup, hek, hbe, ih, List.mem_cons]

/-- Membership in `dedupFirst`. -/
theorem mem_dedupFirst (a : ℤ) :
    ∀ (l seen : List ℤ), a ∈ dedupFirst seen l ↔ (a ∈ l ∧ a ∉ seen) := by
  intro l
  induction l with
  | nil => intro seen; simp [dedupFirst]
  | cons e rest ih =>
    intro seen
    by_cases he : e ∈ seen
    · simp only [dedupFirst, if_pos he, ih, List.mem_cons]
      constructor
      · rintro ⟨h1, h2⟩
        exact ⟨Or.inr h1, h2⟩
      · rintro ⟨h1 | h1, h2⟩
        · exact absurd (by rw [h1]; exact he) h2
        · exact ⟨h1, h2⟩
    · simp only [dedupFirst, if_neg he, List.mem_cons, ih (e :: seen)]
      constructor
      · rintro (rfl | ⟨h1, h2⟩)
        · exact ⟨Or.inl rfl, he⟩
        · simp only [List.mem_cons, not_or] at h2
          exact ⟨Or.inr h1, h2.2⟩
      · rintro ⟨rfl | h1, h2⟩
        · exact Or.inl rfl
        · by_cases hae : a = e
          · exact Or.inl hae
          · exact Or.inr ⟨h1, by simp [List.mem_cons, hae, h2]⟩

/-- An expiration occurs among the survivors' keys iff its `iv_list` is
nonempty. -/
theorem mem_keys_iff_ivsAt_ne_nil (e : ℤ) (svs : List (ℤ × ℚ)) :
    e ∈ svs.map (fun x => x.1) ↔ ivsAt e svs ≠ [] := by
  simp only [ivsAt, ne_eq, List.map_eq_nil_iff, List.filter_eq_nil_iff,
    decide_eq_true_eq, not_forall, List.mem_map]
  aesop

end FFScanner

namespace FFScanner

/-- `termPointAt`, rephrased: a TermPoint is emitted iff at least three
contracts survive at the expiration and the DTE is positive (the Python
truthiness test `dte and dte > 0` collapses to `0 < dte`). -/
theorem termPointAt_eq (today : ℤ) (svs : List (ℤ × ℚ)) (k : ℤ) :
    termPointAt today svs k =
      if 3 ≤ (ivsAt k svs).length ∧ 0 < k - today then
        some (k, { iv := (ivsAt k svs).sum / ((ivsAt k svs).length : ℚ),
                   dte := k - today, count := (ivsAt k svs).length })
      else none := by
  by_cases h1 : 3 ≤ (ivsAt k svs).length
  · by_cases h2 : 0 < k - today
    · simp only [termPointAt]
      rw [if_pos h1, if_pos ⟨by omega, h2⟩, if_pos ⟨h1, h2⟩]
    · simp only [termPointAt]
      rw [if_pos h1, if_neg (fun hc => h2 hc.2), if_neg (fun hc => h2 hc.2)]
  · simp only [termPointAt]
    rw [if_neg h1, if_neg (fun hc => h1 hc.1)]

/-- **C8.** For every expiration date, the Term Structure Builder's output
contains a TermPoint for it if and only if the ATM price estimate exists
(and is truthy) and at least 3 qualifying contracts survive the filters at
that expiration and its DTE is positive; and any emitted TermPoint carries
the arithmetic mean of the surviving contracts' implied volatilities, that
DTE, and the sample count. -/
theorem group_by_expiration_termpoint (today : ℤ)
    (options_data : List RawOption) (e : ℤ) :
    ((∃ tp, (group_by_expiration today options_data).lookup e = some tp) ↔
      (∃ p, estimateStockPrice options_data = some p ∧ p ≠ 0 ∧
        3 ≤ (ivsAt e (survivors p options_data)).length ∧ 0 < e - today)) ∧
    (∀ tp, (group_by_expiration today options_data).lookup e = some tp →
      ∃ p, estimateStockPrice options_data = some p ∧ p ≠ 0 ∧
        tp.iv = (ivsAt e (survivors p options_data)).sum /
          ((ivsAt e (survivors p options_data)).length : ℚ) ∧
        tp.dte = e - today ∧
        tp.count = (ivsAt e (survivors p options_data)).length) := by
  cases hp : estimateStockPrice options_data with
  | none => simp [group_by_expiration, hp]
  | some p =>
    by_cases hp0 : p = 0
    · subst hp0
      simp [group_by_expiration, hp]
    · have hgrp : group_by_expiration today options_data =
          (dedupFirst [] ((survivors p options_data).map (fun x => x.1))).filterMap
            (termPointAt today (survivors p options_data)) := by
        simp [group_by_expiration, hp, hp0]
      have hlk : (group_by_expiration today options_data).lookup e =
          if e ∈ dedupFirst [] ((survivors p options_data).map (fun x => x.1))
          then (termPointAt today (survivors p options_data) e).map (fun pr => pr.2)
          else none := by
        rw [hgrp, lookup_filterMap_keyed _ (termPointAt_key today _)]
      by_cases hm : e ∈ dedupFirst [] ((survivors p options_data).map (fun x => x.1))
      · rw [hlk, if_pos hm, termPointAt_eq]
        constructor
        · constructor
          · rintro ⟨tp, htp⟩
            split_ifs at htp with hc
            · exact ⟨p, rfl, hp0, hc.1, hc.2⟩
            · simp at htp
          · rintro ⟨p', hp', hp'0, hlen, hdte⟩
            obtain rfl : p = p' := Option.some.inj hp'
            rw [if_pos ⟨hlen, hdte⟩]
            exact ⟨_, rfl⟩
        · intro tp htp
          split_ifs at htp with hc
          · simp only [Option.map_some', Option.some.injEq] at htp
            rw [← htp]
            exact ⟨p, rfl, hp0, rfl, rfl, rfl⟩
          · simp at htp
      · rw [hlk, if_neg hm]
        constructor
        · constructor
          · rintro ⟨tp, htp⟩
            simp at htp
          · rintro ⟨p', hp', hp'0, hlen, hdte⟩
            obtain rfl : p = p' := Option.some.inj hp'
            exfalso
            apply hm
            rw [mem_dedupFirst]
            refine ⟨?_, by simp⟩
            rw [mem_keys_iff_ivsAt_ne_nil]
            intro hnil
            rw [hnil] at hlen
            simp at hlen
        · intro tp htp
          simp at htp

end FFScanner

namespace FFScanner

/-- Concrete instance of `group_by_expiration_termpoint`: with three
qualifying contracts at expiration 30 a TermPoint is produced; with only
two, none is. -/
theorem group_by_expiration_termpoint_witness :
    (∃ tp, (group_by_expiration 0
      [⟨some (1/2), some 100, some 30, some 50⟩,
       ⟨none, some 100, some 30, some 40⟩,
       ⟨none, some 105, some 30, some 60⟩]).lookup 30 = some tp) ∧
    ¬ (∃ tp, (group_by_expiration 0
      [⟨some (1/2), some 100, some 30, some 50⟩,
       ⟨none, some 100, some 30, some 40⟩]).lookup 30 = some tp) := by
  have hc : (9 / 20 : ℚ) ≤ |(1 / 2 : ℚ)| ∧ |(1 / 2 : ℚ)| ≤ 11 / 20 := by
    rw [abs_of_pos (by norm_num : (0 : ℚ) < 1 / 2)]
    norm_num
  have hest3 : estimateStockPrice
      [⟨some (1/2), some 100, some 30, some 50⟩,
       ⟨none, some 100, some 30, some 40⟩,
       ⟨none, some 105, some 30, some 60⟩] = some 100 := by
    norm_num [estimateStockPrice, List.findSome?_cons]
    rw [if_pos hc]
  have hest2 : estimateStockPrice
      [⟨some (1/2), some 100, some 30, some 50⟩,
       ⟨none, some 100, some 30, some 40⟩] = some 100 := by
    norm_num [estimateStockPrice, List.findSome?_cons]
    rw [if_pos hc]
  have hivs3 : ivsAt 30 (survivors 100
      [⟨some (1/2), some 100, some 30, some 50⟩,
       ⟨none, some 100, some 30, some 40⟩,
       ⟨none, some 105, some 30, some 60⟩]) = [50, 40, 60] := by
    norm_num [survivors, qualifies, ivsAt, List.filterMap_cons, List.filter]
  have hivs2 : ivsAt 30 (survivors 100
      [⟨some (1/2), some 100, some 30, some 50⟩,
       ⟨none, some 100, some 30, some 40⟩]) = [50, 40] := by
    norm_num [survivors, qualifies, ivsAt, List.filterMap_cons, List.filter]
  constructor
  · apply (group_by_expiration_termpoint 0 _ 30).1.mpr
    refine ⟨100, hest3, by norm_num, ?_, by norm_num⟩
    rw [hivs3]
    norm_num
  · rintro h
    obtain ⟨p, hp, hp0, hlen, _⟩ := (group_by_expiration_termpoint 0 _ 30).1.mp h
    rw [hest2] at hp
    obtain rfl : (100 : ℚ) = p := Option.some.inj hp
    rw [hivs2] at hlen
    norm_num at hlen

end FFScanner

namespace FFScanner

/-! ## §4.5 Earnings Positioning Resolver
(`ff_nightly_scanner.py` 155–203 and `ff_earnings_yahoo.py` 104–149)

Dates are parsed from `YYYY-MM-DD` strings with
`datetime.strptime(s, '%Y-%m-%d')`, modelled by `parseDate` below: split on
`-`, all three components decimal digit strings, month in `1..12`, day in
the month's range (Gregorian).  A parse failure raises `ValueError` in
Python; here `parseDate` returns `none` and the resolvers branch where the
Python `try`/`except` would catch. -/

/-- A calendar date. -/
structure Date where
  y : ℕ
  m : ℕ
  d : ℕ
  deriving DecidableEq, Repr

/-- Gregorian leap year. -/
def isLeapYear (y : ℕ) : Bool :=
  y % 4 = 0 && (y % 100 ≠ 0 || y % 400 = 0)

/-- Days in a month. -/
def daysInMonth (y m : ℕ) : ℕ :=
  if m = 2 then (if isLeapYear y then 29 else 28)
  else if m = 4 ∨ m = 6 ∨ m = 9 ∨ m = 11 then 30
  else 31

/-- Split a character list on `'-'`. -/
def splitDashAux (acc : List Char) : List Char → List (List Char)
  | [] => [acc.reverse]
  | c :: rest =>
      if c = '-' then acc.reverse :: splitDashAux [] rest
      else splitDashAux (c :: acc) rest

/-- Parse a nonempty all-digit character list as a decimal number. -/
def digitsToNat? (l : List Char) : Option ℕ :=
  if l = [] ∨ l.any (fun c => !c.isDigit) then none
  else some (l.foldl (fun n c => n * 10 + (c.toNat - 48)) 0)

/-- `datetime.strptime(s, '%Y-%m-%d')`, as a total function. -/
def parseDate (s : String) : Option Date :=
  match splitDashAux [] s.toList with
  | [ys, ms, ds] =>
      match digitsToNat? ys, digitsToNat? ms, digitsToNat? ds with
      | some y, some m, some d =>
          if 1 ≤ m ∧ m ≤ 12 ∧ 1 ≤ d ∧ d ≤ daysInMonth y m then some ⟨y, m, d⟩
          else none
      | _, _, _ => none
  | _ => none

/-- `datetime` comparison on dates: lexicographic. -/
def dateLt (a b : Date) : Bool :=
  decide (a.y < b.y) ||
    (decide (a.y = b.y) &&
      (decide (a.m < b.m) || (decide (a.m = b.m) && decide (a.d < b.d))))

/-- Day ordinal of a civil date (days since 1970-01-01, standard
days-from-civil algorithm); used for the `timedelta.days` difference in
`has_earnings_soon`. -/
def civilToDays (dt : Date) : ℤ :=
  let y : ℤ := if dt.m ≤ 2 then (dt.y : ℤ) - 1 else (dt.y : ℤ)
  let era : ℤ := (if 0 ≤ y then y else y - 399) / 400
  let yoe : ℤ := y - era * 400
  let mp : ℤ := ((dt.m : ℤ) + 9) % 12
  let doy : ℤ := (153 * mp + 2) / 5 + (dt.d : ℤ) - 1
  let doe : ℤ := yoe * 365 + yoe / 4 - yoe / 100 + doy
  era * 146097 + doe - 719468

/-- `FFScannerService.get_earnings_info` (`ff_nightly_scanner.py` 155–203).
External effects are parameters: `clientPresent` models
`self.polygon_client`, `next_earnings_date` the value extracted from the
provider's ticker details (`none` also covers the missing-attribute chain,
and the empty string is falsy like `None`), `now` the current date
(`datetime.now()`, idealised to whole days for the `.days` flooring).
Returns `none` when no client is configured and when any date string fails
to parse — the raised `ValueError` is caught by the blanket `except`, which
returns `None`. -/
def get_earnings_info (clientPresent : Bool) (ticker : String)
    (next_earnings_date : Option String) (front_date back_date : String)
    (now : Date) : Option EarningsInfo :=
  if !clientPresent then none
  else
    match next_earnings_date with
    | none => some ⟨ticker, none, false, false, false, false⟩
    | some ed =>
        if ed = "" then some ⟨ticker, none, false, false, false, false⟩
        else
          match parseDate ed, parseDate front_date, parseDate back_date with
          | some e, some f, some b =>
              some ⟨ticker, some ed,
                decide (|civilToDays e - civilToDays now| < 60),
                dateLt f e, dateLt e b, dateLt e f && dateLt e b⟩
          | _, _, _ => none

/-- The dict returned by `YahooEarningsCalendar.get_earnings_info`
(`ff_earnings_yahoo.py` 119–149). -/
structure YahooEarningsInfo where
  earnings_date : Option String
  front_is_pre_earnings : Bool
  back_is_post_earnings : Bool
  both_post_earnings : Bool
  deriving DecidableEq, Repr

/-- `YahooEarningsCalendar.get_earnings_info` (`ff_earnings_yahoo.py`
104–149), with the fetched `get_earnings_date` result as a parameter.  A
malformed date is caught by the inner `try`, returning the dict with the
raw string kept and all booleans false. -/
def yahoo_get_earnings_info (earnings_date : Option String)
    (front_date back_date : String) : YahooEarningsInfo :=
  match earnings_date with
  | none => ⟨none, false, false, false⟩
  | some ed =>
      if ed = "" then ⟨none, false, false, false⟩
      else
        match parseDate ed, parseDate front_date, parseDate back_date with
        | some e, some f, some b =>
            ⟨some ed, dateLt f e, dateLt e b, dateLt e f && dateLt e b⟩
        | _, _, _ => ⟨some ed, false, false, false⟩

end FFScanner

namespace FFScanner

/-! ## Claim C9 — absent and malformed earnings dates -/

/-- **C9 is false as stated**: with a malformed earnings-date string
(`"not-a-date"`), the scanner-service resolver raises no exception but
returns `none` — it does not return the all-booleans-false, date-absent
`EarningsInfo` that the claim promises for this case. -/
theorem earnings_malformed_counterexample :
    get_earnings_info true "T" (some "not-a-date") "2025-01-17" "2025-02-21"
      ⟨2025, 1, 1⟩ = none ∧
    ∀ i : EarningsInfo,
      get_earnings_info true "T" (some "not-a-date") "2025-01-17" "2025-02-21"
        ⟨2025, 1, 1⟩ ≠ some i := by
  have hparse : parseDate "not-a-date" = none := by decide
  have h : get_earnings_info true "T" (some "not-a-date") "2025-01-17"
      "2025-02-21" ⟨2025, 1, 1⟩ = none := by
    simp [get_earnings_info, hparse]
  exact ⟨h, fun i => by simp [h]⟩

/-- **C9 (amended).** When no earnings date is available, the resolver
returns an `EarningsInfo` with all booleans false and an absent date.
Malformed date strings never propagate an exception, but they do not
produce that same record: the scanner-service resolver resolves them to an
absent result (`None`), and the Yahoo resolver to a record with all
booleans false that retains the raw date string; in both cases no catalyst
boolean is set. -/
theorem earnings_resolver_no_catalyst (ticker front back : String)
    (now : Date) (s : String) :
    (get_earnings_info true ticker none front back now =
      some ⟨ticker, none, false, false, false, false⟩) ∧
    (parseDate s = none → s ≠ "" →
      get_earnings_info true ticker (some s) front back now = none) ∧
    (parseDate s = none → s ≠ "" →
      yahoo_get_earnings_info (some s) front back =
        ⟨some s, false, false, false⟩) := by
  refine ⟨by simp [get_earnings_info], ?_, ?_⟩
  · intro hparse hne
    simp [get_earnings_info, hne, hparse]
  · intro hparse hne
    simp [yahoo_get_earnings_info, hne, hparse]

/-- Concrete instance of `earnings_resolver_no_catalyst` at the malformed
date string `"bad"`. -/
theorem earnings_resolver_no_catalyst_witness :
    (get_earnings_info true "T" none "2025-01-17" "2025-02-21"
      ⟨2025, 1, 1⟩ = some ⟨"T", none, false, false, false, false⟩) ∧
    (get_earnings_info true "T" (some "bad") "2025-01-17" "2025-02-21"
      ⟨2025, 1, 1⟩ = none) ∧
    (yahoo_get_earnings_info (some "bad") "2025-01-17" "2025-02-21" =
      ⟨some "bad", false, false, false⟩) := by
  have h := earnings_resolver_no_catalyst "T" "2025-01-17" "2025-02-21"
    ⟨2025, 1, 1⟩ "bad"
  exact ⟨h.1, h.2.1 (by decide) (by decide), h.2.2 (by decide) (by decide)⟩

end FFScanner
